import Mathlib

/-!
Shallow embedding of `src/app.py` (LLM-Scrapper), a Flask application with
user signup/login backed by a user table, a `/scrape` endpoint calling an
external crawler, an `/analyze` endpoint calling an external LLM, and an
admin database viewer.  External services (the crawler, the LLM agent, the
password hashing primitives) are modelled as oracle functions passed to the
handlers; a raised exception is modelled as `Except.error` carrying the
exception's message (`str(e)`).  Flask sessions are modelled by their two
relevant entries: the `"user"` key (`Option String`) and the
`"admin_authenticated"` key (`Bool`).  JSON responses are modelled as a
status code plus an association list of string fields in insertion order.
-/

/-- Characters removed by Python `str.strip()` with no argument, restricted to
the ASCII range (`str.isspace` characters). -/
def isPyWhitespace (c : Char) : Bool :=
  c = ' ' || c = '\t' || c = '\n' || c = '\r' || c = '\x0b' || c = '\x0c'

/-- Python `s.strip()`: drop leading and trailing whitespace. -/
def pyStrip (s : String) : String :=
  String.mk (((s.data.dropWhile isPyWhitespace).reverse.dropWhile isPyWhitespace).reverse)

/-- Python `s.split(marker)[0]`: the part of `s` before the first occurrence of
`marker`, or all of `s` when the marker is absent.  Used at `app.py` line 80
with marker `"content_type="`. -/
def takeBeforeMarker (marker : List Char) : List Char → List Char
  | [] => []
  | c :: cs => if marker.isPrefixOf (c :: cs) then [] else c :: takeBeforeMarker marker cs

/-- Lazy search for the closing star of the Python regular expression
`(?<!\*)\*(?!\*)(.+?)(?<!\*)\*(?!\*)` (`app.py` line 83), after the opening
star has been consumed.  `inner` is the group matched so far (reversed),
`prev` the character just before `rest` in the original text.  A `*` closes
the match when the previous character is not `*` (lookbehind), the next
character is not `*` (lookahead) and the group is non-empty (`.+?`); `.` does
not match a newline, so a newline fails the attempt.  Returns the group and
the text after the closing star. -/
def scanInner (inner : List Char) (prev : Char) (rest : List Char) :
    Option (List Char × List Char) :=
  match rest with
  | [] => none
  | c :: cs =>
    if c = '*' ∧ prev ≠ '*' ∧ inner ≠ [] ∧ cs.head? ≠ some '*' then
      some (inner.reverse, cs)
    else if c = '\n' then none
    else scanInner (c :: inner) c cs

/-- Scanning pass of `re.sub`: at each position try to open an emphasis match
(a `*` neither preceded nor followed by `*`); on a match emit `**group**` and
resume after the closing star (the lookbehind there sees the original closing
star), otherwise emit the character.  `fuel` only bounds the number of steps;
`s.length` steps always suffice, since every step consumes at least one
character. -/
def starSubAux (fuel : Nat) (prev : Option Char) (s : List Char) : List Char :=
  match fuel, s with
  | 0, rest => rest
  | _, [] => []
  | fuel + 1, c :: cs =>
    if c = '*' ∧ prev ≠ some '*' ∧ cs.head? ≠ some '*' then
      match scanInner [] '*' cs with
      | some (inner, rest) =>
          '*' :: '*' :: (inner ++ '*' :: '*' :: starSubAux fuel (some '*') rest)
      | none => c :: starSubAux fuel (some c) cs
    else
      c :: starSubAux fuel (some c) cs

/-- Python `re.sub(r'(?<!\*)\*(?!\*)(.+?)(?<!\*)\*(?!\*)', r'**\1**', s)`
(`app.py` line 83): single asterisks used for emphasis become double
asterisks. -/
def starSub (s : List Char) : List Char := starSubAux s.length none s

/-- Python `s.replace('\n', '  \n')` (`app.py` line 86): markdown line
breaks. -/
def mdLineBreaks : List Char → List Char
  | [] => []
  | c :: cs => if c = '\n' then ' ' :: ' ' :: '\n' :: mdLineBreaks cs
      else c :: mdLineBreaks cs

/-- Post-processing of the raw LLM response inside
`get_structured_gemini_response` (`app.py` lines 80-86):
`response_str.split("content_type=")[0].strip()`, then the asterisk
substitution, then the newline replacement. -/
def cleanResponse (response_str : String) : String :=
  let cleaned_content :=
    pyStrip (String.mk (takeBeforeMarker "content_type=".data response_str.data))
  String.mk (mdLineBreaks (starSub cleaned_content.data))

/-- `scrape_website` (`app.py` lines 59-69): a call-through to the external
crawler (built with `max_length=None`); an exception is logged and re-raised
unchanged. -/
def scrape_website (crawler : String → Except String String) (url : String) :
    Except String String :=
  crawler url

/-- `get_structured_gemini_response` (`app.py` lines 71-88): builds the single
combined prompt, runs the external agent (oracle `agentRun`, an error being a
raised exception) and cleans the raw response. -/
def get_structured_gemini_response (agentRun : String → Except String String)
    (content prompt : String) : Except String String :=
  let full_prompt := "Based on this website content:\n\n" ++ content ++ "\n\n" ++ prompt
  match agentRun full_prompt with
  | Except.ok response_str => Except.ok (cleanResponse response_str)
  | Except.error e => Except.error e

/-- A JSON response: HTTP status code and the object's string fields in
insertion order. -/
structure HttpResponse where
  status : Nat
  body : List (String × String)
deriving DecidableEq

/-- Field access in a JSON body. -/
def jsonLookup (k : String) : List (String × String) → Option String
  | [] => none
  | (k2, v) :: rest => if k = k2 then some v else jsonLookup k rest

/-- Python `url.startswith(p)` for one prefix `p`. -/
def startsWithStr (s pre : String) : Bool := pre.data.isPrefixOf s.data

/-- Outcome of the `/scrape` handler: the JSON response, and the URL passed to
`scrape_website` when the handler reached that call (`none` when the gateway
was never invoked). -/
structure ScrapeOutcome where
  response : HttpResponse
  gatewayArg : Option String
deriving DecidableEq

/-- `scrape_url`, the `/scrape` handler (`app.py` lines 141-180):
auth check, strip and validate `url`, prefix `https://` when no scheme,
scrape, map success and failure to JSON. -/
def scrape_url (sessionUser : Option String) (urlField : Option String)
    (crawler : String → Except String String) (debug_id : String) : ScrapeOutcome :=
  match sessionUser with
  | none => ⟨⟨401, [("error", "Authentication required"), ("status", "error")]⟩, none⟩
  | some _ =>
    let url := pyStrip (urlField.getD "")
    if url = "" then
      ⟨⟨400, [("error", "URL is required"), ("status", "error"),
              ("debug_id", debug_id)]⟩, none⟩
    else
      let url2 := if startsWithStr url "http://" || startsWithStr url "https://" then url
        else "https://" ++ url
      let response :=
        match scrape_website crawler url2 with
        | Except.ok scraped_content =>
            HttpResponse.mk 200 [("content", scraped_content), ("status", "success"),
              ("debug_id", debug_id)]
        | Except.error e =>
            HttpResponse.mk 500 [("error", "Scraping failed: " ++ e), ("status", "error"),
              ("debug_id", debug_id)]
      ⟨response, some url2⟩

/-- Outcome of the `/analyze` handler: the JSON response, and the
`(content, prompt)` pair passed to `get_structured_gemini_response` when the
handler reached that call. -/
structure AnalyzeOutcome where
  response : HttpResponse
  gatewayArg : Option (String × String)
deriving DecidableEq

/-- `analyze_content`, the `/analyze` handler (`app.py` lines 182-225):
auth check, strip and validate `content` and `prompt`, analyze, map success
and failure to JSON (the 500 body here has no `debug_id` field). -/
def analyze_content (sessionUser : Option String) (contentField promptField : Option String)
    (agentRun : String → Except String String) (debug_id : String) : AnalyzeOutcome :=
  match sessionUser with
  | none => ⟨⟨401, [("error", "Authentication required"), ("status", "error")]⟩, none⟩
  | some _ =>
    let content := pyStrip (contentField.getD "")
    let prompt := pyStrip (promptField.getD "")
    if content = "" then
      ⟨⟨400, [("error", "Content is required"), ("status", "error"),
              ("debug_id", debug_id)]⟩, none⟩
    else if prompt = "" then
      ⟨⟨400, [("error", "Prompt is required"), ("status", "error"),
              ("debug_id", debug_id)]⟩, none⟩
    else
      let response :=
        match get_structured_gemini_response agentRun content prompt with
        | Except.ok analysis =>
            HttpResponse.mk 200 [("analysis", analysis), ("status", "success")]
        | Except.error e =>
            HttpResponse.mk 500 [("error", "Analysis failed: " ++ e), ("status", "error")]
      ⟨response, some (content, prompt)⟩

/-- One record of the `User` model (`app.py` lines 43-50); the surrogate `id`
and `created_at` play no role in any handler's logic. -/
structure User where
  username : String
  password_hash : String
deriving DecidableEq

/-- Result of a POST to `/signup`. -/
inductive SignupOutcome
  /-- flash "Username already exists" -/
  | alreadyExists
  /-- flash success and redirect to login -/
  | created
deriving DecidableEq

/-- `signup` (`app.py` lines 114-133): reject when a user with the username
exists (`User.query.filter_by(username=...).first()`), otherwise append a new
record with the hashed password.  `hash` is the `generate_password_hash`
oracle. -/
def signup (store : List User) (hash : String → String)
    (username password : String) : List User × SignupOutcome :=
  match store.find? (fun u => u.username == username) with
  | some _ => (store, SignupOutcome.alreadyExists)
  | none => (store ++ [⟨username, hash password⟩], SignupOutcome.created)

/-- Result of a POST to `/login`: on success `session["user"]` is set to the
username. -/
inductive LoginOutcome
  /-- session user set, flash success, redirect to index -/
  | success (sessionUser : String)
  /-- flash "Invalid username or password" -/
  | invalidCredentials
deriving DecidableEq

/-- `login` (`app.py` lines 100-112): look the username up and verify the
password against the stored hash (`checkHash` is the `check_password_hash`
oracle).  The credential store is read, never written. -/
def login (store : List User) (checkHash : String → String → Bool)
    (username password : String) : LoginOutcome :=
  match store.find? (fun u => u.username == username) with
  | some user =>
      if checkHash user.password_hash password then LoginOutcome.success username
      else LoginOutcome.invalidCredentials
  | none => LoginOutcome.invalidCredentials

/-- Page rendered by the `/admin/db-viewer` handler. -/
inductive DbViewerPage
  /-- not logged in: flash and redirect to `/login` -/
  | redirectToLogin
  /-- `db_viewer.html` with the full user list -/
  | userList (users : List User)
  /-- `admin_login.html` -/
  | adminLoginForm
deriving DecidableEq

/-- Outcome of `/admin/db-viewer`: the rendered page and the session's
`admin_authenticated` flag after the request. -/
structure DbViewerOutcome where
  page : DbViewerPage
  adminAuthenticated : Bool
deriving DecidableEq

/-- `db_viewer` (`app.py` lines 227-252): require login; on POST of the
hardcoded credentials `admin` / `12345678` set `admin_authenticated` and show
the list; otherwise show the list whenever the flag is already set, else the
admin login form.  Nothing ever clears the flag. -/
def db_viewer (sessionUser : Option String) (admin_authenticated : Bool)
    (isPost : Bool) (admin_username admin_password : Option String)
    (users : List User) : DbViewerOutcome :=
  match sessionUser with
  | none => ⟨DbViewerPage.redirectToLogin, admin_authenticated⟩
  | some _ =>
    if isPost ∧ admin_username = some "admin" ∧ admin_password = some "12345678" then
      ⟨DbViewerPage.userList users, true⟩
    else if admin_authenticated then
      ⟨DbViewerPage.userList users, admin_authenticated⟩
    else
      ⟨DbViewerPage.adminLoginForm, admin_authenticated⟩

/-- the declared constant (`app.py` line 57); no handler ever reads it. -/
def MAX_CONTENT_LENGTH : Nat := 10 * 1024 * 1024

/-- Helper: stripping the empty string yields the empty string. -/
theorem pyStrip_empty : pyStrip "" = "" := rfl

/-- Helper: a string all of whose characters are Python whitespace strips to
the empty string. -/
theorem pyStrip_all_whitespace (s : String) (h : ∀ c ∈ s.data, isPyWhitespace c = true) :
    pyStrip s = "" := by
  unfold pyStrip
  rw [show s.data.dropWhile isPyWhitespace = [] from List.dropWhile_eq_nil_iff.mpr h]
  rfl

/-- C1 (counterexample): on the raw response `"*hello* world\ncontent_type=foo"`
the cleaning in `get_structured_gemini_response` does not return
`"**hello** world  \n"`: the `.strip()` after the `content_type=` truncation
removes the trailing newline before the line-break conversion runs. -/
theorem c1_analysis_cleaning_counterexample :
    cleanResponse "*hello* world\ncontent_type=foo" ≠ "**hello** world  \n" := by decide

/-- C1 (amended): on the raw response `"*hello* world\ncontent_type=foo"` the
cleaning returns exactly `"**hello** world"`: truncation at the
`content_type=` marker also strips surrounding whitespace (removing the
trailing newline), then single-asterisk emphasis becomes double-asterisk
emphasis, and no newline remains for the `"  \n"` replacement. -/
theorem c1_analysis_cleaning :
    cleanResponse "*hello* world\ncontent_type=foo" = "**hello** world" := by rfl

/-- C2: a request to `/scrape` or `/analyze` whose session has no `"user"` key
gets the 401 unauthorized JSON response, and neither `scrape_website` nor
`get_structured_gemini_response` is invoked. -/
theorem c2_unauthenticated_rejected (urlField contentField promptField : Option String)
    (crawler agentRun : String → Except String String) (d1 d2 : String) :
    scrape_url none urlField crawler d1 =
      ⟨⟨401, [("error", "Authentication required"), ("status", "error")]⟩, none⟩ ∧
    analyze_content none contentField promptField agentRun d2 =
      ⟨⟨401, [("error", "Authentication required"), ("status", "error")]⟩, none⟩ :=
  ⟨rfl, rfl⟩

/-- C3: an authenticated POST to `/analyze` whose `content` or `prompt` field
is empty gets a 400 validation error and `get_structured_gemini_response` is
never called. -/
theorem c3_empty_fields_rejected (u : String) (contentField promptField : Option String)
    (agentRun : String → Except String String) (d : String)
    (h : contentField.getD "" = "" ∨ promptField.getD "" = "") :
    (analyze_content (some u) contentField promptField agentRun d).response.status = 400 ∧
    (analyze_content (some u) contentField promptField agentRun d).gatewayArg = none := by
  rcases h with h | h
  · simp [analyze_content, h, pyStrip_empty]
  · by_cases hc : pyStrip (contentField.getD "") = ""
    · simp [analyze_content, hc]
    · simp [analyze_content, hc, h, pyStrip_empty]

/-- C3 witness at a concrete empty content field. -/
theorem c3_empty_fields_rejected_witness :
    (analyze_content (some "alice") (some "") (some "summarize")
        (fun _ => Except.ok "x") "DBG").response.status = 400 ∧
    (analyze_content (some "alice") (some "") (some "summarize")
        (fun _ => Except.ok "x") "DBG").gatewayArg = none :=
  c3_empty_fields_rejected "alice" (some "") (some "summarize")
    (fun _ => Except.ok "x") "DBG" (Or.inl rfl)

/-- C4: when a user with the username already exists, `signup` reports
already-exists and leaves the store unchanged; moreover every `signup` call
preserves username uniqueness of the store. -/
theorem c4_signup_uniqueness (store : List User) (hash : String → String) (name pw : String)
    (h : ∃ u ∈ store, u.username = name) :
    (signup store hash name pw).2 = SignupOutcome.alreadyExists ∧
    (signup store hash name pw).1 = store ∧
    ∀ (s : List User) (n p : String),
      (s.map (fun u => u.username)).Nodup →
      (((signup s hash n p).1).map (fun u => u.username)).Nodup := by
  have hfind : ∃ v, store.find? (fun u2 => u2.username == name) = some v := by
    cases hf : store.find? (fun u2 => u2.username == name) with
    | some v => exact ⟨v, rfl⟩
    | none =>
      exfalso
      obtain ⟨u2, hu2, hn⟩ := h
      exact absurd (by simp [hn]) (List.find?_eq_none.mp hf u2 hu2)
  obtain ⟨v, hv⟩ := hfind
  refine ⟨by simp [signup, hv], by simp [signup, hv], ?_⟩
  intro s n p hnd
  cases hf : s.find? (fun u2 => u2.username == n) with
  | some w => simpa [signup, hf] using hnd
  | none =>
    have hnotmem : n ∉ s.map (fun u => u.username) := by
      intro hmem
      obtain ⟨w, hw, hwn⟩ := List.mem_map.mp hmem
      exact absurd (by simp [hwn]) (List.find?_eq_none.mp hf w hw)
    simp only [signup, hf, List.map_append, List.map_cons, List.map_nil]
    rw [← List.concat_eq_append]
    exact List.Nodup.concat hnotmem hnd

/-- C4 witness at a concrete duplicate signup. -/
theorem c4_signup_uniqueness_witness :
    (signup [⟨"alice", "H"⟩] (fun p => p) "alice" "pw").2 = SignupOutcome.alreadyExists ∧
    (signup [⟨"alice", "H"⟩] (fun p => p) "alice" "pw").1 = [⟨"alice", "H"⟩] :=
  ⟨(c4_signup_uniqueness [⟨"alice", "H"⟩] (fun p => p) "alice" "pw"
      ⟨⟨"alice", "H"⟩, List.mem_singleton.mpr rfl, rfl⟩).1,
   (c4_signup_uniqueness [⟨"alice", "H"⟩] (fun p => p) "alice" "pw"
      ⟨⟨"alice", "H"⟩, List.mem_singleton.mpr rfl, rfl⟩).2.1⟩

/-- C5: for a non-empty submitted URL, `/scrape` invokes the crawler with
`https://` prefixed when the URL starts with neither `http://` nor
`https://`, and with the URL unchanged otherwise; in particular
`"example.com"` becomes `"https://example.com"`. -/
theorem c5_url_normalization (u : String) (urlField : Option String)
    (crawler : String → Except String String) (d : String)
    (h : pyStrip (urlField.getD "") ≠ "") :
    (startsWithStr (pyStrip (urlField.getD "")) "http://" = false →
      startsWithStr (pyStrip (urlField.getD "")) "https://" = false →
      (scrape_url (some u) urlField crawler d).gatewayArg =
        some ("https://" ++ pyStrip (urlField.getD ""))) ∧
    ((startsWithStr (pyStrip (urlField.getD "")) "http://" = true ∨
      startsWithStr (pyStrip (urlField.getD "")) "https://" = true) →
      (scrape_url (some u) urlField crawler d).gatewayArg =
        some (pyStrip (urlField.getD ""))) ∧
    (scrape_url (some u) (some "example.com") crawler d).gatewayArg =
      some "https://example.com" := by
  refine ⟨fun h1 h2 => ?_, fun h12 => ?_, rfl⟩
  · simp [scrape_url, h, h1, h2]
  · rcases h12 with h1 | h1 <;> simp [scrape_url, h, h1]

/-- C5 witness at the concrete URL `"example.com"`. -/
theorem c5_url_normalization_witness :
    (scrape_url (some "alice") (some "example.com")
        (fun _ => Except.ok "page") "DBG").gatewayArg = some "https://example.com" :=
  (c5_url_normalization "alice" (some "example.com")
      (fun _ => Except.ok "page") "DBG" (by decide)).2.2

/-- C6 (counterexample): when the LLM call raises, `/analyze` returns a 500
whose error field carries the message, but the body has no `debug_id` field,
contrary to the claim that both handlers' 500 responses carry one. -/
theorem c6_upstream_error_counterexample :
    (analyze_content (some "alice") (some "text") (some "ask")
        (fun _ => Except.error "boom") "DBG").response.status = 500 ∧
    jsonLookup "error" (analyze_content (some "alice") (some "text") (some "ask")
        (fun _ => Except.error "boom") "DBG").response.body =
      some "Analysis failed: boom" ∧
    jsonLookup "debug_id" (analyze_content (some "alice") (some "text") (some "ask")
        (fun _ => Except.error "boom") "DBG").response.body = none :=
  ⟨rfl, rfl, rfl⟩

/-- C6 (amended): when the underlying gateway call raises, each handler
returns a 500 JSON response whose error field carries the upstream message;
the `/scrape` body also carries the `debug_id` correlation identifier, while
the `/analyze` 500 body carries no `debug_id` field. -/
theorem c6_upstream_errors (u url c p d e e2 : String)
    (crawler agentRun : String → Except String String)
    (hu : pyStrip url ≠ "")
    (hcrawler : ∀ s, crawler s = Except.error e)
    (hc : pyStrip c ≠ "") (hp : pyStrip p ≠ "")
    (hagent : ∀ s, agentRun s = Except.error e2) :
    (scrape_url (some u) (some url) crawler d).response =
      ⟨500, [("error", "Scraping failed: " ++ e), ("status", "error"), ("debug_id", d)]⟩ ∧
    (analyze_content (some u) (some c) (some p) agentRun d).response =
      ⟨500, [("error", "Analysis failed: " ++ e2), ("status", "error")]⟩ := by
  constructor
  · simp [scrape_url, scrape_website, hu, hcrawler]
  · simp [analyze_content, get_structured_gemini_response, hc, hp, hagent]

/-- C6 witness at concrete failing gateways. -/
theorem c6_upstream_errors_witness :
    (scrape_url (some "alice") (some "example.com")
        (fun _ => Except.error "down") "DBG").response =
      ⟨500, [("error", "Scraping failed: down"), ("status", "error"), ("debug_id", "DBG")]⟩ ∧
    (analyze_content (some "alice") (some "text") (some "ask")
        (fun _ => Except.error "quota") "DBG").response =
      ⟨500, [("error", "Analysis failed: quota"), ("status", "error")]⟩ :=
  c6_upstream_errors "alice" "example.com" "text" "ask" "DBG" "down" "quota"
    (fun _ => Except.error "down") (fun _ => Except.error "quota")
    (by decide) (fun _ => rfl) (by decide) (by decide) (fun _ => rfl)

/-- C7: for a stored user and a password that does not verify against the
stored hash, `login` takes the invalid-credentials path and never sets the
session user; `login` reads the store and never writes it, so the result does
not depend on prior successful logins. -/
theorem c7_wrong_password_fails (store : List User) (checkHash : String → String → Bool)
    (name pw : String) (u : User)
    (hfind : store.find? (fun v => v.username == name) = some u)
    (hpw : checkHash u.password_hash pw = false) :
    login store checkHash name pw = LoginOutcome.invalidCredentials := by
  simp [login, hfind, hpw]

/-- C7 witness at a concrete wrong password. -/
theorem c7_wrong_password_fails_witness :
    login [⟨"bob", "HASH"⟩] (fun h p => h == p) "bob" "guess" =
      LoginOutcome.invalidCredentials :=
  c7_wrong_password_fails [⟨"bob", "HASH"⟩] (fun h p => h == p) "bob" "guess"
    ⟨"bob", "HASH"⟩ rfl (by decide)

/-- C8: a successful scrape returns the crawler's content unmodified with
status 200, for content of any size: no truncation or rejection based on
`MAX_CONTENT_LENGTH` is applied, even when the content exceeds it. -/
theorem c8_no_content_cap (u url d scraped : String)
    (crawler : String → Except String String)
    (hu : pyStrip url ≠ "")
    (hcrawler : ∀ s, crawler s = Except.ok scraped) :
    (scrape_url (some u) (some url) crawler d).response.status = 200 ∧
    jsonLookup "content" (scrape_url (some u) (some url) crawler d).response.body =
      some scraped ∧
    (MAX_CONTENT_LENGTH < scraped.length →
      jsonLookup "content" (scrape_url (some u) (some url) crawler d).response.body =
        some scraped) := by
  refine ⟨?_, ?_, fun _ => ?_⟩ <;>
    simp [scrape_url, scrape_website, hu, hcrawler, jsonLookup]

/-- C8 witness at a concrete successful scrape. -/
theorem c8_no_content_cap_witness :
    (scrape_url (some "alice") (some "example.com")
        (fun _ => Except.ok "hi") "DBG").response.status = 200 ∧
    jsonLookup "content" (scrape_url (some "alice") (some "example.com")
        (fun _ => Except.ok "hi") "DBG").response.body = some "hi" ∧
    (MAX_CONTENT_LENGTH < String.length "hi" →
      jsonLookup "content" (scrape_url (some "alice") (some "example.com")
          (fun _ => Except.ok "hi") "DBG").response.body = some "hi") :=
  c8_no_content_cap "alice" "example.com" "DBG" "hi"
    (fun _ => Except.ok "hi") (by decide) (fun _ => rfl)

/-- C9: a required field consisting only of whitespace is stripped to the
empty string, so `/scrape` with such a `url`, and `/analyze` with such a
`content` or such a `prompt`, return the 400 validation error without
invoking the gateway. -/
theorem c9_whitespace_only_rejected (u ws other d : String)
    (crawler agentRun : String → Except String String)
    (h : ∀ c ∈ ws.data, isPyWhitespace c = true) :
    (scrape_url (some u) (some ws) crawler d).response.status = 400 ∧
    (scrape_url (some u) (some ws) crawler d).gatewayArg = none ∧
    (analyze_content (some u) (some ws) (some other) agentRun d).response.status = 400 ∧
    (analyze_content (some u) (some ws) (some other) agentRun d).gatewayArg = none ∧
    (analyze_content (some u) (some other) (some ws) agentRun d).response.status = 400 ∧
    (analyze_content (some u) (some other) (some ws) agentRun d).gatewayArg = none := by
  have hws : pyStrip ws = "" := pyStrip_all_whitespace ws h
  refine ⟨?_, ?_, ?_, ?_, ?_, ?_⟩
  · simp [scrape_url, hws]
  · simp [scrape_url, hws]
  · simp [analyze_content, hws]
  · simp [analyze_content, hws]
  · by_cases hc : pyStrip other = "" <;> simp [analyze_content, hws, hc]
  · by_cases hc : pyStrip other = "" <;> simp [analyze_content, hws, hc]

/-- C9 witness at a concrete whitespace-only field. -/
theorem c9_whitespace_only_rejected_witness :
    (scrape_url (some "alice") (some " \n\t") (fun _ => Except.ok "x") "DBG").response.status
      = 400 ∧
    (scrape_url (some "alice") (some " \n\t") (fun _ => Except.ok "x") "DBG").gatewayArg
      = none ∧
    (analyze_content (some "alice") (some " \n\t") (some "ask")
        (fun _ => Except.ok "x") "DBG").response.status = 400 ∧
    (analyze_content (some "alice") (some " \n\t") (some "ask")
        (fun _ => Except.ok "x") "DBG").gatewayArg = none ∧
    (analyze_content (some "alice") (some "ask") (some " \n\t")
        (fun _ => Except.ok "x") "DBG").response.status = 400 ∧
    (analyze_content (some "alice") (some "ask") (some " \n\t")
        (fun _ => Except.ok "x") "DBG").gatewayArg = none :=
  c9_whitespace_only_rejected "alice" " \n\t" "ask" "DBG"
    (fun _ => Except.ok "x") (fun _ => Except.ok "x") (by decide)

/-- C10: in a logged-in session whose `admin_authenticated` flag is set, every
`/admin/db-viewer` request renders the full user list — whatever the method
and whatever admin credentials are or are not submitted — and the flag stays
set: admin access is never revoked for the session's lifetime. -/
theorem c10_admin_access_sticky (u : String) (isPost : Bool)
    (admin_username admin_password : Option String) (users : List User) :
    db_viewer (some u) true isPost admin_username admin_password users =
      ⟨DbViewerPage.userList users, true⟩ := by
  simp only [db_viewer]
  split <;> rfl
